import Mathlib

/-!
Verification development for the `comment-coverage-clover` coverage engine.

The definitions below are a shallow embedding of the TypeScript sources:

* `src/src/types/index.ts` — the metric model (`Coverage`, `Folder`,
  `Stats`);
* `src/unnamed/part_001` — the Clover-XML ingestion module (`fromString`
  and its helpers);
* `src/unnamed/part_000` — the action entry point (`filter`,
  `checkThreshold`).

JavaScript numbers are modelled by `JsNum`: either NaN (arising here only
from coercing a missing XML attribute with `Number`) or a finite value
represented exactly as a rational.  XML documents are modelled post-parse:
the `xml-js` parse of a well-formed document is a `CloverProject` value,
and the attribute set of a `metrics` node is a record of `Option ℚ`
fields, `none` standing for an absent attribute (JavaScript `undefined`).
String operations of the source (`split`, `includes`, `startsWith`,
`slice`, `endsWith`) are modelled character-list-wise so that they are
executable by the kernel; for the ASCII paths appearing in reports this
agrees with the UTF-16 behaviour of JavaScript.
-/

namespace CloverSpec

/-- A JavaScript number as it occurs in this code base: NaN or a finite
value, the latter represented exactly as a rational (the source performs
no operation whose rounding to binary64 is observable at the granularity
of the properties proved here; `toFixed(4)` is modelled as exact decimal
rounding). -/
inductive JsNum where
  | nan : JsNum
  | num : ℚ → JsNum
deriving DecidableEq, Repr

namespace JsNum

/-- JS `+` on numbers: NaN absorbs. -/
def add : JsNum → JsNum → JsNum
  | num a, num b => num (a + b)
  | _, _ => nan

/-- JS `-` on numbers: NaN absorbs. -/
def sub : JsNum → JsNum → JsNum
  | num a, num b => num (a - b)
  | _, _ => nan

/-- JS `*` on numbers: NaN absorbs. -/
def mul : JsNum → JsNum → JsNum
  | num a, num b => num (a * b)
  | _, _ => nan

/-- JS `/` as used in this code base.  Every division in the source is
guarded by a strict positivity test on the denominator, so the
division-by-zero branch (±Infinity or NaN in JavaScript) is unreachable
there; we map it to `nan`. -/
def div : JsNum → JsNum → JsNum
  | num a, num b => if b = 0 then nan else num (a / b)
  | _, _ => nan

/-- JS `>`: false whenever either operand is NaN. -/
def gt : JsNum → JsNum → Bool
  | num a, num b => decide (b < a)
  | _, _ => false

/-- JS `>=`: false whenever either operand is NaN. -/
def ge : JsNum → JsNum → Bool
  | num a, num b => decide (b ≤ a)
  | _, _ => false

/-- `Math.abs`; NaN propagates. -/
def abs : JsNum → JsNum
  | num a => num |a|
  | nan => nan

/-- `Math.round`: round half toward +∞; NaN propagates. -/
def round : JsNum → JsNum
  | num a => num ((⌊a + 1/2⌋ : ℤ) : ℚ)
  | nan => nan

/-- JS `v || 0` applied to a number: NaN and ±0 are falsy and give 0,
every other number gives itself. -/
def orZero : JsNum → ℚ
  | num a => a
  | nan => 0

/-- The value is a number lying in the unit interval. -/
def inUnitB : JsNum → Bool
  | num a => decide (0 ≤ a) && decide (a ≤ 1)
  | nan => false

/-- The value is NaN or a nonnegative number — true of every fraction a
`Coverage` built from nonnegative inputs can carry. -/
def nonnegB : JsNum → Bool
  | num a => decide (0 ≤ a)
  | nan => true

end JsNum

/-- `parseFloat(x.toFixed(4))` on a nonnegative finite value: round to
four decimal digits, ties toward +∞ (ECMAScript `toFixed` picks the
larger candidate on ties). -/
def roundTo4 (q : ℚ) : ℚ := ((⌊q * 10000 + 1/2⌋ : ℤ) : ℚ) / 10000

/-! ## The metric model (`src/src/types/index.ts`) -/

/-- `Coverage` from types/index.ts: total, covered and the derived
`percentual`. -/
structure Coverage where
  total : JsNum
  covered : JsNum
  percentual : JsNum
deriving DecidableEq, Repr

/-- The `Coverage` constructor (types/index.ts lines 25–33):
`percentual = total == 0 ? 1.0 : parseFloat((covered/total).toFixed(4))`.
The `total == 0` test is false for NaN, in which case the division
propagates NaN through `toFixed`/`parseFloat`. -/
def Coverage.make (total covered : JsNum) : Coverage :=
  { total := total
    covered := covered
    percentual :=
      if total = JsNum.num 0 then JsNum.num 1
      else
        match total, covered with
        | JsNum.num t, JsNum.num c => JsNum.num (roundTo4 (c / t))
        | _, _ => JsNum.nan }

/-- `StatsMetrics` from types/index.ts. -/
structure StatsMetrics where
  lines : Coverage
  methods : Coverage
  branches : Coverage
deriving DecidableEq, Repr

/-- One entry of a file's `lineCoverage` array.  The source stores the
range as the string `` `${start}` `` or `` `${start}-${end}` ``; we keep
the two endpoints (the rendering is injective on ranges).  `stop` is the
source's `end` (a Lean keyword). -/
structure LineEntry where
  start : ℤ
  stop : ℤ
  coverage : ℤ
deriving DecidableEq, Repr

/-- One entry of a file's `methodCoverage` array; the method name comes
from the line record's optional `name` attribute. -/
structure MethodEntry where
  method : Option String
  coverage : ℤ
deriving DecidableEq, Repr

/-- `FileMetrics` from types/index.ts. -/
structure FileMetrics where
  lines : Coverage
  methods : Coverage
  branches : Coverage
  lineCoverage : List LineEntry
  methodCoverage : List MethodEntry
deriving DecidableEq, Repr

/-- `File` from types/index.ts. -/
structure File where
  name : String
  metrics : FileMetrics
deriving DecidableEq, Repr

/-- `Folder` from types/index.ts. -/
structure Folder where
  name : String
  files : List File
deriving DecidableEq, Repr

/-- `Folder.push` (types/index.ts lines 105–108): plain array append. -/
def Folder.push (fo : Folder) (f : File) : Folder :=
  { fo with files := fo.files ++ [f] }

/-- `Folder.get` (types/index.ts lines 116–119): first file with the
given name, or null. -/
def Folder.get (fo : Folder) (name : String) : Option File :=
  fo.files.find? (fun f => f.name == name)

/-- `Stats` from types/index.ts.  The `folders` JavaScript `Map` is
modelled as an association list in insertion order. -/
structure Stats where
  total : StatsMetrics
  folders : List (String × Folder)
deriving DecidableEq, Repr

/-- `Stats.get` (types/index.ts lines 141–143). -/
def Stats.get (s : Stats) (folder file : String) : Option File :=
  match s.folders.lookup folder with
  | some fo => fo.get file
  | none => none

/-! ## Character-list models of the JavaScript string operations -/

/-- JS `String.prototype.split(sep)` for a one-character separator,
on character lists: `"a/b".split("/") = ["a","b"]`, `"".split("/") = [""]`. -/
def splitChars (sep : Char) : List Char → List Char → List (List Char)
  | [], acc => [acc.reverse]
  | c :: rest, acc =>
    if c = sep then acc.reverse :: splitChars sep rest []
    else splitChars sep rest (c :: acc)

/-- JS `path.split("/")`. -/
def jsSplitSlash (s : String) : List String :=
  (splitChars '/' s.data []).map (fun cs => String.mk cs)

/-- JS `Array.prototype.join("/")`. -/
def jsJoinSlash : List String → String
  | [] => ""
  | [s] => s
  | s :: rest => s ++ "/" ++ jsJoinSlash rest

/-- JS `a.startsWith(b)`. -/
def jsStartsWith (s pre : String) : Bool :=
  pre.data.isPrefixOf s.data

/-- JS `a.endsWith(b)`. -/
def jsEndsWith (s suf : String) : Bool :=
  suf.data.isSuffixOf s.data

/-- JS `a.slice(n)` (drop the first `n` code units; ASCII ⇒ characters). -/
def jsDrop (s : String) (n : ℕ) : String :=
  String.mk (s.data.drop n)

/-- JS `a.includes(b)`: `b` occurs as a contiguous substring of `a`. -/
def jsIncludes (hay needle : String) : Bool :=
  (List.range (hay.data.length + 1)).any
    (fun i => needle.data.isPrefixOf (hay.data.drop i))

/-- JS `a < b` on strings: lexicographic comparison of code units (ASCII
⇒ characters). -/
def charListLt : List Char → List Char → Bool
  | [], [] => false
  | [], _ :: _ => true
  | _ :: _, [] => false
  | a :: as, b :: bs =>
    if a.val < b.val then true
    else if b.val < a.val then false
    else charListLt as bs

/-- JS `a < b` on strings. -/
def jsStrLt (a b : String) : Bool :=
  charListLt a.data b.data

/-! ## Clover XML ingestion (`src/unnamed/part_001`) -/

/-- The `_attributes` of a Clover `metrics` node, restricted to the six
attributes the engine reads.  `none` models an absent attribute
(JavaScript `undefined`). -/
structure CloverAttrs where
  statements : Option ℚ
  coveredstatements : Option ℚ
  methods : Option ℚ
  coveredmethods : Option ℚ
  conditionals : Option ℚ
  coveredconditionals : Option ℚ
deriving DecidableEq, Repr

/-- `Number(x)` for an attribute that may be absent: `Number(undefined)`
is NaN. -/
def attrNum : Option ℚ → JsNum
  | some q => JsNum.num q
  | none => JsNum.nan

/-- A `<line>` child of a Clover file node (`num`, `count`, optional
`type` and `name` attributes; `num`/`count` are the `parseInt` results). -/
structure LineRec where
  num : ℤ
  count : ℤ
  type : Option String
  name : Option String
deriving DecidableEq, Repr

/-- A Clover file node.  `line` is the `line` child list after the
source's `asList` normalisation (absent ↦ `[]`, single node ↦ singleton). -/
structure CloverFile where
  name : String
  path : Option String
  attrs : CloverAttrs
  line : List LineRec
deriving DecidableEq, Repr

/-- A Clover package node (its `file` children after `asList`). -/
structure CloverPackage where
  file : List CloverFile
deriving DecidableEq, Repr

/-- The `coverage.project` node of a parsed Clover document (children
after `asList`). -/
structure CloverProject where
  file : List CloverFile
  package : List CloverPackage
  metrics : CloverAttrs
deriving DecidableEq, Repr

/-- `getAllFiles` (part_001 lines 212–220): root files first, then the
packages' files in document order. -/
def getAllFiles (p : CloverProject) : List CloverFile :=
  p.file ++ p.package.foldl (fun acc pkg => acc ++ pkg.file) []

/-- `createTotalMetrics` (part_001 lines 225–231). -/
def createTotalMetrics (a : CloverAttrs) : StatsMetrics :=
  { lines := Coverage.make (attrNum a.statements) (attrNum a.coveredstatements)
    methods := Coverage.make (attrNum a.methods) (attrNum a.coveredmethods)
    branches := Coverage.make (attrNum a.conditionals) (attrNum a.coveredconditionals) }

/-- The range-extension step of `createFileMetrics`: inside one
same-status group, extend the last range when the new line number is
adjacent to it, otherwise start a fresh single-line range. -/
def extendGroup (g : List (ℤ × ℤ)) (n : ℤ) : List (ℤ × ℤ) :=
  match g.getLast? with
  | some r => if r.2 = n - 1 then g.dropLast ++ [(r.1, n)] else g ++ [(n, n)]
  | none => [(n, n)]

/-- The `lineGroups` object of `createFileMetrics` (part_001 lines
323–351): ranges keyed by coverage status.  First component: the `"0"`
group (count == 0), second: the `"100"` group (count > 0). -/
def lineGroupsOf (lines : List LineRec) : List (ℤ × ℤ) × List (ℤ × ℤ) :=
  lines.foldl
    (fun gs line =>
      if line.count > 0 then (gs.1, extendGroup gs.2 line.num)
      else (extendGroup gs.1 line.num, gs.2))
    ([], [])

/-- The `lineCoverage` array produced by `createFileMetrics` (part_001
lines 353–361).  The groups object is keyed by the strings `"0"` and
`"100"`; both are array-index keys, so `Object.keys` enumerates them in
ascending numeric order — `"0"` before `"100"` — regardless of insertion
order.  Hence every uncovered range precedes every covered range. -/
def lineCoverageOf (lines : List LineRec) : List LineEntry :=
  (lineGroupsOf lines).1.map (fun r => { start := r.1, stop := r.2, coverage := 0 })
    ++ (lineGroupsOf lines).2.map (fun r => { start := r.1, stop := r.2, coverage := 100 })

/-- The `methodCoverage` array produced by `createFileMetrics` (part_001
lines 344–350): one entry per line record tagged `type == "method"`, in
input order. -/
def methodCoverageOf (lines : List LineRec) : List MethodEntry :=
  lines.filterMap (fun line =>
    let cov : ℤ := if line.count > 0 then 100 else 0
    if line.type = some "method" then
      some { method := line.name, coverage := cov }
    else none)

/-- `createFileMetrics` (part_001 lines 314–371). -/
def createFileMetrics (a : CloverAttrs) (lines : List LineRec) : FileMetrics :=
  { lines := Coverage.make (attrNum a.statements) (attrNum a.coveredstatements)
    methods := Coverage.make (attrNum a.methods) (attrNum a.coveredmethods)
    branches := Coverage.make (attrNum a.conditionals) (attrNum a.coveredconditionals)
    lineCoverage := lineCoverageOf lines
    methodCoverage := methodCoverageOf lines }

/-- `normalizeFileNames` (part_001 lines 249–254): `name = path || name`
(an empty `path` string is falsy and keeps `name`). -/
def normalizeFileNames (files : List CloverFile) : List CloverFile :=
  files.map (fun f =>
    { f with name := match f.path with
                      | some p => if p = "" then f.name else p
                      | none => f.name })

/-- `sortFilesByName` (part_001 lines 259–263): stable sort with the
comparator `a.name < b.name ? -1 : 1`.  JavaScript's `Array.sort` is
modelled as a stable insertion sort; for equal names the comparator
returns 1, so the incoming element is placed after the existing one. -/
def sortFilesByName (files : List CloverFile) : List CloverFile :=
  files.insertionSort (fun a b => jsStrLt a.name b.name = true)

/-- `extractFolderFromPath` (part_001 lines 278–280):
`filePath.split("/").slice(0, -1).join("/")`. -/
def extractFolderFromPath (filePath : String) : String :=
  jsJoinSlash ((jsSplitSlash filePath).dropLast)

/-- `extractFileNameFromPath` (part_001 lines 376–378):
`filePath.split("/").pop() || filePath`. -/
def extractFileNameFromPath (filePath : String) : String :=
  match (jsSplitSlash filePath).getLast? with
  | some s => if s = "" then filePath else s
  | none => filePath

/-- A file annotated with its folder, as produced by
`extractFolderPaths` (part_001 lines 268–273). -/
structure FileWithFolder where
  base : CloverFile
  folder : String
deriving DecidableEq, Repr

/-- `extractFolderPaths` (part_001 lines 268–273). -/
def extractFolderPaths (files : List CloverFile) : List FileWithFolder :=
  files.map (fun f => { base := f, folder := extractFolderFromPath f.name })

/-- The `File` record pushed by `groupFilesByFolder` for one input file. -/
def mkFile (it : FileWithFolder) : File :=
  { name := extractFileNameFromPath it.base.name
    metrics := createFileMetrics it.base.attrs it.base.line }

/-- Mutating `foldersMap.get(folder)!.push(file)`: append the file to the
folder stored under the (present) key. -/
def pushIntoFolder : List (String × Folder) → String → File → List (String × Folder)
  | [], _, _ => []
  | (k, fo) :: rest, key, f =>
    if k = key then (k, fo.push f) :: rest
    else (k, fo) :: pushIntoFolder rest key f

/-- One iteration of the `groupFilesByFolder` loop (part_001 lines
288–306): create the folder on first sight of its key, then push the
file record. -/
def groupStep (m : List (String × Folder)) (it : FileWithFolder) : List (String × Folder) :=
  let m' := if (m.lookup it.folder).isSome then m
            else m ++ [(it.folder, { name := it.folder, files := [] })]
  pushIntoFolder m' it.folder (mkFile it)

/-- `groupFilesByFolder` (part_001 lines 285–309). -/
def groupFilesByFolder (items : List FileWithFolder) : List (String × Folder) :=
  items.foldl groupStep []

/-- `processFilesIntoFolders` (part_001 lines 236–244). -/
def processFilesIntoFolders (files : List CloverFile) : List (String × Folder) :=
  groupFilesByFolder (extractFolderPaths (sortFilesByName (normalizeFileNames files)))

/-! ## Change-set attribution (`fromString`, part_001 lines 84–199) -/

/-- One entry of a touched line list: a plain number, a `"start-end"`
string (already split and parsed), or a value of neither shape (mapped to
null and filtered out by the source). -/
inductive LineInfo where
  | single : ℤ → LineInfo
  | rangeOf : ℤ → ℤ → LineInfo
  | invalid : LineInfo
deriving DecidableEq, Repr

/-- An entry of `pullRequestFiles`: either a plain file-name string
(`lines := none` and the name in `file`) or an object with a `lines`
property as produced by `getPullRequestChanges`. -/
structure PRFile where
  file : String
  lines : Option (List LineInfo)
deriving DecidableEq, Repr

/-- The workspace prefix normalisation
`workspace.endsWith("/") ? workspace : workspace.concat("/")`. -/
def wNorm (workspace : String) : String :=
  if jsEndsWith workspace "/" then workspace else workspace ++ "/"

/-- `hasLineInfo` (part_001 line 97): the first entry, if any, carries a
`lines` property. -/
def hasLineInfoOf (prFiles : List PRFile) : Bool :=
  match prFiles.head? with
  | some f => f.lines.isSome
  | none => false

/-- The per-file normalised name
`name.startsWith(w) ? name.slice(w.length) : name`. -/
def stripWorkspace (w name : String) : String :=
  if jsStartsWith name w then jsDrop name w.data.length else name

/-- The touched-file test of the filter at part_001 lines 100–109: with
line info, `f.file && f.file.includes(fileName)`; without,
`f.includes(fileName)`. -/
def prMatches (hasLineInfo : Bool) (prFiles : List PRFile) (fileName : String) : Bool :=
  prFiles.any (fun f =>
    if hasLineInfo then !(f.file == "") && jsIncludes f.file fileName
    else jsIncludes f.file fileName)

/-- `pullRequestFiles.find(f => f.file && f.file.includes(fileName))`
(part_001 line 124). -/
def findPRFile (prFiles : List PRFile) (fileName : String) : Option PRFile :=
  prFiles.find? (fun f => !(f.file == "") && jsIncludes f.file fileName)

/-- The `lineRanges` mapping (part_001 lines 128–136): numbers become
one-line ranges, `"start-end"` strings become ranges, anything else is
dropped. -/
def toRange : LineInfo → Option (ℤ × ℤ)
  | LineInfo.single n => some (n, n)
  | LineInfo.rangeOf s e => some (s, e)
  | LineInfo.invalid => none

/-- The six running sums of the attribution loop. -/
structure Contribution where
  statements : JsNum
  coveredStatements : JsNum
  methods : JsNum
  coveredMethods : JsNum
  conditionals : JsNum
  coveredConditionals : JsNum
deriving DecidableEq, Repr

/-- A file counted with its full aggregate metrics (the else-branches of
the attribution loop, part_001 lines 168–185). -/
def fullContribution (a : CloverAttrs) : Contribution :=
  { statements := attrNum a.statements
    coveredStatements := attrNum a.coveredstatements
    methods := attrNum a.methods
    coveredMethods := attrNum a.coveredmethods
    conditionals := attrNum a.conditionals
    coveredConditionals := attrNum a.coveredconditionals }

/-- The ranged estimate of the attribution loop (part_001 lines 138–167),
for a file matched to a touched entry with a non-empty line list.  Note
the three proportions: statements use `totalRangeLines / statements`,
methods use `totalRangeLines / (methods || 0)`, conditionals use
`totalRangeLines / (conditionals || 0)` — each metric has its own
denominator. -/
def rangedContribution (a : CloverAttrs) (lineRanges : List (ℤ × ℤ)) : Contribution :=
  let totalLines := attrNum a.statements
  let coveredLines := attrNum a.coveredstatements
  let totalRangeLines : JsNum :=
    JsNum.num ((lineRanges.foldl (fun sum r => sum + (r.2 - r.1 + 1)) 0 : ℤ) : ℚ)
  let proportion := if JsNum.gt totalLines (JsNum.num 0)
                    then JsNum.div totalRangeLines totalLines else JsNum.num 1
  let methodTotal := JsNum.num (JsNum.orZero (attrNum a.methods))
  let methodProportion := if JsNum.gt methodTotal (JsNum.num 0)
                          then JsNum.div totalRangeLines methodTotal else JsNum.num 1
  let conditionalTotal := JsNum.num (JsNum.orZero (attrNum a.conditionals))
  let conditionalProportion := if JsNum.gt conditionalTotal (JsNum.num 0)
                               then JsNum.div totalRangeLines conditionalTotal
                               else JsNum.num 1
  { statements := JsNum.round (JsNum.mul totalLines proportion)
    coveredStatements := JsNum.round (JsNum.mul coveredLines proportion)
    methods := JsNum.round (JsNum.mul methodTotal methodProportion)
    coveredMethods := JsNum.round (JsNum.mul (attrNum a.coveredmethods) methodProportion)
    conditionals := JsNum.round (JsNum.mul conditionalTotal conditionalProportion)
    coveredConditionals :=
      JsNum.round (JsNum.mul (attrNum a.coveredconditionals) conditionalProportion) }

/-- The body of the attribution `forEach` (part_001 lines 119–186) for
one retained file: the six amounts added to the running sums. -/
def fileContribution (hasLineInfo : Bool) (prFiles : List PRFile) (w : String)
    (file : CloverFile) : Contribution :=
  if hasLineInfo then
    match findPRFile prFiles (stripWorkspace w file.name) with
    | some prf =>
      match prf.lines with
      | some lns =>
        if lns.length > 0 then rangedContribution file.attrs (lns.filterMap toRange)
        else fullContribution file.attrs
      | none => fullContribution file.attrs
    | none => fullContribution file.attrs
  else fullContribution file.attrs

/-- Summing the contributions of the retained files (the `forEach` with
its six `+=` accumulators, all starting at 0).  Caveat: at runtime the
`xml-js` attribute values are strings, so in the whole-file branch the
source's `+=` concatenates instead of adding (with `Number` re-parsing
the result only inside the `Coverage` constructor), while the ranged
branch's arithmetic coerces to numbers.  This numeric model therefore
agrees with the source exactly when every retained file takes the
ranged branch, when a single retained file takes the whole-file branch,
or when no file is retained — the only shapes the theorems below
evaluate. -/
def contribSum (hasLineInfo : Bool) (prFiles : List PRFile) (w : String)
    (files : List CloverFile) : Contribution :=
  files.foldl
    (fun acc f =>
      let c := fileContribution hasLineInfo prFiles w f
      { statements := JsNum.add acc.statements c.statements
        coveredStatements := JsNum.add acc.coveredStatements c.coveredStatements
        methods := JsNum.add acc.methods c.methods
        coveredMethods := JsNum.add acc.coveredMethods c.coveredMethods
        conditionals := JsNum.add acc.conditionals c.conditionals
        coveredConditionals := JsNum.add acc.coveredConditionals c.coveredConditionals })
    { statements := JsNum.num 0, coveredStatements := JsNum.num 0
      methods := JsNum.num 0, coveredMethods := JsNum.num 0
      conditionals := JsNum.num 0, coveredConditionals := JsNum.num 0 }

/-- `fromString` (part_001 lines 84–199) after a successful XML parse:
build the project totals from the project `metrics` node; when a
non-empty `pullRequestFiles` list is supplied, keep only matching files
and replace the totals with the re-summed (possibly range-estimated)
contributions; finally group the retained files into folders. -/
def fromString (workspace : String) (proj : CloverProject)
    (prFiles : List PRFile) : Stats :=
  let allFiles := getAllFiles proj
  let totalMetrics := createTotalMetrics proj.metrics
  if prFiles.length > 0 then
    let w := wNorm workspace
    let hasLineInfo := hasLineInfoOf prFiles
    let kept := allFiles.filter (fun file =>
      prMatches hasLineInfo prFiles (stripWorkspace w file.name))
    let s := contribSum hasLineInfo prFiles w kept
    { total :=
        { lines := Coverage.make s.statements s.coveredStatements
          methods := Coverage.make s.methods s.coveredMethods
          branches := Coverage.make s.conditionals s.coveredConditionals }
      folders := processFilesIntoFolders kept }
  else
    { total := totalMetrics, folders := processFilesIntoFolders allFiles }

/-- The outcome of `parseCloverXML` (part_001 lines 204–207) on the raw
XML text, as the untyped code behaves at runtime: `xml2json` throws its
own error on input that is not well-formed XML (`malformed`); on
well-formed XML, the chained accesses `parsed.coverage.project`,
`cloverData.metrics._attributes` and each file node's
`metrics._attributes` throw a TypeError when the document does not have
the expected coverage/project/metrics shape (`badShape`); a well-formed
document that does have that shape parses to a `CloverProject`
(`wellShaped`). -/
inductive XmlInput where
  | malformed : XmlInput
  | badShape : XmlInput
  | wellShaped : CloverProject → XmlInput

/-- `fromString` with its failure modes made explicit.  The repository
defines no error class of its own — no ParseError and no
MalformedReportError: both failure modes surface the underlying
JavaScript exceptions, and for a document of the expected shape the
pipeline above runs to completion whether or not the numeric metrics
attributes are present. -/
def fromStringE (workspace : String) (input : XmlInput)
    (prFiles : List PRFile) : Except String Stats :=
  match input with
  | XmlInput.malformed => Except.error "xml-js: malformed XML"
  | XmlInput.badShape => Except.error "TypeError: document lacks the coverage/project/metrics shape"
  | XmlInput.wellShaped proj => Except.ok (fromString workspace proj prFiles)

/-! ## Threshold evaluation (`checkThreshold`, part_000 lines 320–359) -/

/-- A violation message, tagged by which check produced it, carrying the
numbers interpolated into the message text (limit and current/diff
value).  The textual rendering with `toFixed(2)` is presentation. -/
inductive ThresholdMsg where
  | minLine : JsNum → JsNum → ThresholdMsg
  | minMethod : JsNum → JsNum → ThresholdMsg
  | maxLineDec : JsNum → JsNum → ThresholdMsg
  | maxMethodDec : JsNum → JsNum → ThresholdMsg
deriving DecidableEq, Repr

/-- Position of a message kind in the source's fixed evaluation order. -/
def ThresholdMsg.rank : ThresholdMsg → ℕ
  | minLine _ _ => 0
  | minMethod _ _ => 1
  | maxLineDec _ _ => 2
  | maxMethodDec _ _ => 3

/-- The message was produced by the minimum-line-coverage check. -/
def ThresholdMsg.isMinLine : ThresholdMsg → Bool
  | minLine _ _ => true
  | _ => false

/-- The message was produced by the minimum-method-coverage check. -/
def ThresholdMsg.isMinMethod : ThresholdMsg → Bool
  | minMethod _ _ => true
  | _ => false

/-- The message was produced by the max-line-coverage-decrease check. -/
def ThresholdMsg.isMaxLineDec : ThresholdMsg → Bool
  | maxLineDec _ _ => true
  | _ => false

/-- The message was produced by the max-method-coverage-decrease check. -/
def ThresholdMsg.isMaxMethodDec : ThresholdMsg → Bool
  | maxMethodDec _ _ => true
  | _ => false

/-- The module-scope threshold configuration (part_000 lines 66–69).
`minLineCoverage` and `minMethodCoverage` are `Number(getInput(...))`
— `num 0` when the input is unset (`Number("") == 0`), possibly `nan`
for a non-numeric input.  The two decrease limits are kept as strings
and tested for truthiness before `Number` conversion: `none` models the
falsy (empty) string, `some v` a non-empty string with numeric value
`v`. -/
structure ThresholdConfig where
  minLineCoverage : JsNum
  minMethodCoverage : JsNum
  maxLineCoverageDecrease : Option JsNum
  maxMethodCoverageDecrease : Option JsNum
deriving DecidableEq, Repr

/-- `checkThreshold` (part_000 lines 320–359), with the generator's
yields collected in evaluation order.  The regression checks run only
when a baseline (`o`) is present (`if (o === undefined) return`). -/
def checkThreshold (cfg : ThresholdConfig) (c : Stats) (o : Option Stats) :
    List ThresholdMsg :=
  (if JsNum.gt cfg.minLineCoverage
      (JsNum.mul c.total.lines.percentual (JsNum.num 100)) then
    [ThresholdMsg.minLine cfg.minLineCoverage
      (JsNum.mul c.total.lines.percentual (JsNum.num 100))]
   else [])
  ++ (if JsNum.gt cfg.minMethodCoverage
        (JsNum.mul c.total.methods.percentual (JsNum.num 100)) then
      [ThresholdMsg.minMethod cfg.minMethodCoverage
        (JsNum.mul c.total.methods.percentual (JsNum.num 100))]
     else [])
  ++ match o with
     | none => []
     | some o =>
       let lcdiff := JsNum.mul
         (JsNum.sub o.total.lines.percentual c.total.lines.percentual) (JsNum.num 100)
       let mcdiff := JsNum.mul
         (JsNum.sub o.total.methods.percentual c.total.methods.percentual) (JsNum.num 100)
       (match cfg.maxLineCoverageDecrease with
        | some limit =>
          if JsNum.ge lcdiff limit then [ThresholdMsg.maxLineDec lcdiff limit] else []
        | none => [])
       ++ (match cfg.maxMethodCoverageDecrease with
           | some limit =>
             if JsNum.ge mcdiff limit then [ThresholdMsg.maxMethodDec mcdiff limit]
             else []
           | none => [])

/-! ## Filtering (`filter`, part_000 lines 231–299) -/

/-- The metric kind selected by `table-type-coverage` (validated by `run`
to be one of the three). -/
inductive MetricKind where
  | lines : MetricKind
  | methods : MetricKind
  | branches : MetricKind
deriving DecidableEq, Repr

/-- `f.metrics[type]`. -/
def FileMetrics.metricOf (m : FileMetrics) : MetricKind → Coverage
  | MetricKind.lines => m.lines
  | MetricKind.methods => m.methods
  | MetricKind.branches => m.branches

/-- `between` (part_000 lines 309–310): `min <= (v || 0) && (v || 0) <= max`. -/
def between (v : JsNum) (min max : ℚ) : Bool :=
  decide (min ≤ JsNum.orZero v) && decide (JsNum.orZero v ≤ max)

/-- The `onlyWith` filter options. -/
structure OnlyWith where
  cover : Bool
  coverableLines : Bool
deriving DecidableEq, Repr

/-- The `onlyBetween` filter options; `type` is always one of the three
metric names (a non-empty, hence truthy, string). -/
structure OnlyBetween where
  type : MetricKind
  min : ℚ
  max : ℚ
  delta : ℚ
deriving DecidableEq, Repr

/-- The `filters` array built by `filter` (part_000 lines 245–280), in
push order: coverage presence, coverable lines, percent range (only when
`min > 0 || max < 100`), delta magnitude (only when `delta > 0` and a
baseline is present). -/
def activeFilters (ow : OnlyWith) (ob : OnlyBetween) (o : Option Stats) :
    List (String → File → Bool) :=
  (if ow.cover then [fun _ f => !(f.metrics.lines.covered == JsNum.num 0)] else [])
  ++ (if ow.coverableLines then [fun _ f => !(f.metrics.lines.total == JsNum.num 0)]
      else [])
  ++ (if ob.min > 0 ∨ ob.max < 100 then
        [fun _ f => between
          (JsNum.mul (f.metrics.metricOf ob.type).percentual (JsNum.num 100))
          ob.min ob.max]
      else [])
  ++ (match o with
      | some os =>
        if ob.delta > 0 then
          [fun folder f =>
            match os.get folder f.name with
            | none => true
            | some of =>
              JsNum.gt
                (JsNum.mul
                  (JsNum.abs (JsNum.sub (f.metrics.metricOf ob.type).percentual
                    (of.metrics.metricOf ob.type).percentual))
                  (JsNum.num 100))
                (JsNum.num ob.delta)]
        else []
      | none => [])

/-- The folder traversal of `filter` (part_000 lines 288–296): replace
every folder's file list by its filtered version and drop folders left
empty (`s.folders.delete`), for a combined per-file predicate `p`
(receiving the folder key and the file). -/
def filterFolders (p : String → File → Bool) (l : List (String × Folder)) :
    List (String × Folder) :=
  l.filterMap (fun kf =>
    let files := kf.2.files.filter (fun f => p kf.1 f)
    if files.isEmpty then none
    else some (kf.1, { kf.2 with files := files }))

/-- `filter` (part_000 lines 231–299): with no active predicate the input
is returned as is; otherwise every folder's file list is filtered by the
conjunction (`filters.reduce((r, fn) => r && fn(f, key), true)`) of the
active predicates and folders left empty are removed. -/
def filter (ow : OnlyWith) (ob : OnlyBetween) (o : Option Stats) (s : Stats) : Stats :=
  let filters := activeFilters ow ob o
  if filters.isEmpty then s
  else
    { s with folders :=
        filterFolders (fun key f => filters.all (fun fn => fn key f)) s.folders }

/-! ## Theorems -/

/-- Rounding to four decimal digits preserves the unit interval. -/
theorem roundTo4_mem_unit {q : ℚ} (h0 : 0 ≤ q) (h1 : q ≤ 1) :
    0 ≤ roundTo4 q ∧ roundTo4 q ≤ 1 := by
  have hfl : (0 : ℤ) ≤ ⌊q * 10000 + 1/2⌋ := by
    rw [Int.floor_nonneg]
    nlinarith
  have hmid : q * 10000 + 1/2 ≤ (10000 : ℚ) + 1/2 := by nlinarith
  have hfu : ⌊q * 10000 + 1/2⌋ ≤ 10000 := by
    have h2 := Int.floor_le_floor (α := ℚ) hmid
    have h3 : ⌊(10000 : ℚ) + 1/2⌋ = 10000 := by norm_num
    omega
  unfold roundTo4
  constructor
  · exact div_nonneg (by exact_mod_cast hfl) (by norm_num)
  · rw [div_le_one (by norm_num)]
    exact_mod_cast hfu

/-- Claim C2 counterexample: the claim quantifies over every
`total ≥ 0, covered ≥ 0`, but with `total = 1`, `covered = 2` the
constructed fraction is `2`, outside `[0, 1]` (and `total ≠ 0`), so the
stated range property fails. -/
theorem C2_counterexample :
    (Coverage.make (JsNum.num 1) (JsNum.num 2)).percentual = JsNum.num 2 ∧
    (Coverage.make (JsNum.num 1) (JsNum.num 2)).percentual.inUnitB = false := by
  have h : (Coverage.make (JsNum.num 1) (JsNum.num 2)).percentual = JsNum.num 2 := by
    simp only [Coverage.make, roundTo4]
    norm_num
  refine ⟨h, ?_⟩
  rw [h]
  simp only [JsNum.inUnitB]
  norm_num

/-- Claim C2 (amended): for every `total ≥ 0` and `0 ≤ covered ≤ total`,
the `Coverage` constructor yields fraction `1` when `total = 0`, else
`covered/total` rounded to 4 decimal digits, and the fraction lies in
`[0, 1]`; `Coverage(0, 0)` has fraction `1`.  (The original claim's range
statement needs the extra bound `covered ≤ total`, which the type does
not enforce: `covered > total` produces a fraction above 1.) -/
theorem C2_amended (t c : ℚ) (ht : 0 ≤ t) (hc : 0 ≤ c) (hct : c ≤ t) :
    (t = 0 → (Coverage.make (JsNum.num t) (JsNum.num c)).percentual = JsNum.num 1) ∧
    (t ≠ 0 →
      (Coverage.make (JsNum.num t) (JsNum.num c)).percentual
        = JsNum.num (roundTo4 (c / t))) ∧
    (Coverage.make (JsNum.num t) (JsNum.num c)).percentual.inUnitB = true ∧
    (Coverage.make (JsNum.num 0) (JsNum.num 0)).percentual = JsNum.num 1 := by
  refine ⟨?_, ?_, ?_, by simp [Coverage.make]⟩
  · intro h
    subst h
    simp [Coverage.make]
  · intro h
    simp [Coverage.make, h]
  · by_cases h : t = 0
    · subst h
      simp [Coverage.make, JsNum.inUnitB]
    · have htpos : 0 < t := lt_of_le_of_ne ht (Ne.symm h)
      have hdiv0 : 0 ≤ c / t := div_nonneg hc ht
      have hdiv1 : c / t ≤ 1 := (div_le_one htpos).mpr hct
      obtain ⟨h0, h1⟩ := roundTo4_mem_unit hdiv0 hdiv1
      simp only [Coverage.make]
      rw [if_neg (by simpa using h)]
      simp [JsNum.inUnitB, h0, h1]

/-- Witness for `C2_amended` at `total = 5`, `covered = 2`. -/
theorem C2_amended_witness :
    ((0 : ℚ) ≤ 5 ∧ (0 : ℚ) ≤ 2 ∧ (2 : ℚ) ≤ 5) ∧
    (Coverage.make (JsNum.num 5) (JsNum.num 2)).percentual.inUnitB = true := by
  refine ⟨by norm_num, ?_⟩
  exact (C2_amended 5 2 (by norm_num) (by norm_num) (by norm_num)).2.2.1

/-- The attributes of the C4 example file (their values are irrelevant to
the line-coverage array). -/
def c4Attrs : CloverAttrs :=
  { statements := some 5, coveredstatements := some 4, methods := some 0
    coveredmethods := some 0, conditionals := some 0, coveredconditionals := some 0 }

/-- The C4 example line records, in ascending line order: lines 1, 2, 3,
5, 6 hit, line 4 not hit. -/
def c4Lines : List LineRec :=
  [{ num := 1, count := 1, type := none, name := none },
   { num := 2, count := 1, type := none, name := none },
   { num := 3, count := 1, type := none, name := none },
   { num := 4, count := 0, type := none, name := none },
   { num := 5, count := 1, type := none, name := none },
   { num := 6, count := 1, type := none, name := none }]

/-- Claim C4 counterexample: for ascending lines 1,2,3,5,6 hit and 4 not
hit, `createFileMetrics` does NOT produce the claimed ascending sequence
`[{1-3,100},{4,0},{5-6,100}]` — the groups object is keyed by `"0"` and
`"100"`, which `Object.keys` enumerates numerically ascending, so the
uncovered range is emitted first. -/
theorem C4_counterexample :
    (createFileMetrics c4Attrs c4Lines).lineCoverage ≠
      [{ start := 1, stop := 3, coverage := 100 },
       { start := 4, stop := 4, coverage := 0 },
       { start := 5, stop := 6, coverage := 100 }] := by
  decide

/-- Claim C4 (amended): ingestion still coalesces ascending same-status
runs into maximal ranges, but emits all uncovered (status 0) ranges
before all covered (status 100) ranges, each group internally in
ascending order: the example yields exactly
`[{4,0},{1-3,100},{5-6,100}]`. -/
theorem C4_amended :
    (createFileMetrics c4Attrs c4Lines).lineCoverage =
      [{ start := 4, stop := 4, coverage := 0 },
       { start := 1, stop := 3, coverage := 100 },
       { start := 5, stop := 6, coverage := 100 }] := by
  decide

/-- Total number of file records stored across all folders. -/
def sumFiles (m : List (String × Folder)) : ℕ :=
  (m.map (fun kf => kf.2.files.length)).sum

/-- Pushing into a present folder key grows the total file count by one. -/
theorem sumFiles_pushIntoFolder (m : List (String × Folder)) (key : String) (f : File)
    (h : (m.lookup key).isSome) :
    sumFiles (pushIntoFolder m key f) = sumFiles m + 1 := by
  induction m with
  | nil => simp [List.lookup] at h
  | cons kf rest ih =>
    obtain ⟨k, fo⟩ := kf
    by_cases hk : k = key
    · subst hk
      simp only [pushIntoFolder, if_pos rfl, if_true, eq_self_iff_true, sumFiles,
        List.map_cons, List.sum_cons, Folder.push, List.length_append, List.length_singleton]
      omega
    · have hbeq : (key == k) = false := by
        simp only [beq_eq_false_iff_ne, ne_eq]
        exact fun he => hk he.symm
      have h' : (rest.lookup key).isSome := by
        simpa [List.lookup, hbeq] using h
      have ih' := ih h'
      simp only [pushIntoFolder, if_neg hk, sumFiles, List.map_cons, List.sum_cons] at ih' ⊢
      omega

/-- Appending a fresh key at the end makes it visible to `lookup` when it
was absent before. -/
theorem lookup_append_single (m : List (String × Folder)) (key : String) (fo : Folder)
    (h : m.lookup key = none) : (m ++ [(key, fo)]).lookup key = some fo := by
  induction m with
  | nil => simp [List.lookup]
  | cons kf rest ih =>
    by_cases hk : (key == kf.1) = true
    · simp [List.lookup, hk] at h
    · simp only [Bool.not_eq_true] at hk
      have h' : rest.lookup key = none := by simpa [List.lookup, hk] using h
      simpa [List.lookup, hk] using ih h'

/-- One iteration of the grouping loop adds exactly one stored file. -/
theorem sumFiles_groupStep (m : List (String × Folder)) (it : FileWithFolder) :
    sumFiles (groupStep m it) = sumFiles m + 1 := by
  simp only [groupStep]
  cases hm : m.lookup it.folder with
  | some fo =>
    rw [if_pos (by rfl)]
    exact sumFiles_pushIntoFolder m it.folder (mkFile it) (by rw [hm]; rfl)
  | none =>
    rw [if_neg (by simp)]
    rw [sumFiles_pushIntoFolder _ _ (mkFile it)
      (by rw [lookup_append_single m it.folder _ hm]; rfl)]
    simp [sumFiles]

/-- Claim C5 counterexample: two input files with the same full path
(hence same folder and same display name) are BOTH retained by grouping —
`Folder.push` appends, it does not replace — so file names are not unique
within a folder. -/
theorem C5_counterexample :
    ((processFilesIntoFolders
        [{ name := "a/b.ts", path := none
           attrs := { statements := some 10, coveredstatements := some 5, methods := some 0
                      coveredmethods := some 0, conditionals := some 0
                      coveredconditionals := some 0 }
           line := [] },
         { name := "a/b.ts", path := none
           attrs := { statements := some 20, coveredstatements := some 6, methods := some 0
                      coveredmethods := some 0, conditionals := some 0
                      coveredconditionals := some 0 }
           line := [] }]).lookup "a").map (fun fo => fo.files.map File.name)
      = some ["b.ts", "b.ts"] ∧
    ¬ (["b.ts", "b.ts"] : List String).Nodup := by
  constructor
  · rfl
  · decide

/-- Claim C5 (amended): grouping is append-only — every input file record
is kept, so the total number of stored files equals the input length; a
duplicate display name within a folder yields two entries (in sorted
order), not a replacement. -/
theorem C5_amended (items : List FileWithFolder) :
    sumFiles (groupFilesByFolder items) = items.length := by
  suffices h : ∀ m, sumFiles (List.foldl groupStep m items) = sumFiles m + items.length by
    simpa [groupFilesByFolder, sumFiles] using h []
  induction items with
  | nil => intro m; simp
  | cons it rest ih =>
    intro m
    simp only [List.foldl_cons, List.length_cons]
    rw [ih (groupStep m it), sumFiles_groupStep]
    omega

/-- The metrics-attribute record of the C6 example: the required
`statements` attribute is absent. -/
def c6Attrs : CloverAttrs :=
  { statements := none, coveredstatements := some 5, methods := some 2
    coveredmethods := some 1, conditionals := some 0, coveredconditionals := some 0 }

/-- The C6 example document: well-formed and of the expected
coverage/project/metrics shape, but its project `metrics` node is
missing the `statements` attribute. -/
def c6Proj : CloverProject := { file := [], package := [], metrics := c6Attrs }

/-- Claim C6 counterexample: on a well-formed document of the expected
shape whose project metrics lack the required `statements` attribute,
`fromString` does NOT fail with a MalformedReportError — no such class
exists in the repository — but returns a fully built `Stats` whose line
total and line fraction are NaN. -/
theorem C6_counterexample :
    fromStringE "x/" (XmlInput.wellShaped c6Proj) [] =
      Except.ok (fromString "x/" c6Proj []) ∧
    (fromString "x/" c6Proj []).total.lines.total = JsNum.nan ∧
    (fromString "x/" c6Proj []).total.lines.percentual = JsNum.nan := by
  refine ⟨rfl, ?_, ?_⟩ <;> rfl

/-- Claim C6 (amended): the repository defines no ParseError or
MalformedReportError class.  Input that is not well-formed XML fails
with the `xml-js` library's own exception, and well-formed XML lacking
the expected coverage/project/metrics shape fails with a TypeError from
the untyped property accesses; but a well-formed document OF the
expected shape whose metrics node is missing a required numeric
attribute does NOT fail: `fromString` returns a fully built `Stats`
whose affected `Coverage` total and fraction are NaN
(`Number(undefined)`). -/
theorem C6_amended (proj : CloverProject) (h : proj.metrics.statements = none) :
    (∀ (w : String) (pr : List PRFile),
      (fromStringE w XmlInput.malformed pr).isOk = false) ∧
    (∀ (w : String) (pr : List PRFile),
      (fromStringE w XmlInput.badShape pr).isOk = false) ∧
    (∀ w : String,
      fromStringE w (XmlInput.wellShaped proj) [] = Except.ok (fromString w proj []) ∧
      (fromString w proj []).total.lines.total = JsNum.nan ∧
      (fromString w proj []).total.lines.percentual = JsNum.nan) := by
  refine ⟨fun w pr => rfl, fun w pr => rfl, fun w => ⟨rfl, ?_, ?_⟩⟩ <;>
    simp [fromString, createTotalMetrics, Coverage.make, attrNum, h]

/-- Witness for `C6_amended` at the concrete shaped document `c6Proj`. -/
theorem C6_amended_witness :
    c6Proj.metrics.statements = none ∧
    (fromString "x/" c6Proj []).total.lines.percentual = JsNum.nan :=
  ⟨rfl, ((C6_amended c6Proj rfl).2.2 "x/").2.2⟩

/-- A `filterMap` whose function fixes every member of a list leaves the
list unchanged. -/
theorem filterMap_of_mem_id {α : Type} (g : α → Option α) (l : List α)
    (h : ∀ x ∈ l, g x = some x) : l.filterMap g = l := by
  induction l with
  | nil => rfl
  | cons a rest ih =>
    rw [List.filterMap_cons, h a (by simp)]
    rw [ih (fun x hx => h x (by simp [hx]))]

/-- `filterFolders` is idempotent: a second pass with the same predicate
keeps every folder produced by the first pass unchanged. -/
theorem filterFolders_idem (p : String → File → Bool) (l : List (String × Folder)) :
    filterFolders p (filterFolders p l) = filterFolders p l := by
  apply filterMap_of_mem_id
  intro kf' hmem
  rcases List.mem_filterMap.mp hmem with ⟨kf, _, hg⟩
  simp only [filterFolders] at hg ⊢
  by_cases he : (kf.2.files.filter (fun f => p kf.1 f)).isEmpty = true
  · rw [if_pos he] at hg
    exact absurd hg (by simp)
  · rw [if_neg he] at hg
    obtain rfl : kf' = (kf.1, { kf.2 with files := kf.2.files.filter (fun f => p kf.1 f) }) :=
      (Option.some.injEq _ _).mp hg.symm
    have hff : (kf.2.files.filter (fun f => p kf.1 f)).filter (fun f => p kf.1 f)
        = kf.2.files.filter (fun f => p kf.1 f) := by
      apply List.filter_eq_self.mpr
      intro a ha
      exact List.of_mem_filter ha
    simp only [hff]
    rw [if_neg he]

/-- Claim C8: filtering is idempotent — for every statistics value,
predicate configuration and optional baseline, applying `filter` twice
with the same arguments equals applying it once. -/
theorem C8_filter_idempotent (ow : OnlyWith) (ob : OnlyBetween) (o : Option Stats)
    (s : Stats) :
    filter ow ob o (filter ow ob o s) = filter ow ob o s := by
  simp only [filter]
  by_cases hf : (activeFilters ow ob o).isEmpty = true
  · simp [hf]
  · simp only [hf, Bool.false_eq_true, if_false]
    rw [filterFolders_idem]

/-- Claim C9: when no predicate is active — both presence switches off,
the percent range not constraining (`min ≤ 0` and `max ≥ 100`), and the
delta filter disabled (`delta ≤ 0` or no baseline) — `filter` returns its
input unchanged. -/
theorem C9_filter_identity (ow : OnlyWith) (ob : OnlyBetween) (o : Option Stats)
    (s : Stats)
    (hcover : ow.cover = false) (hcl : ow.coverableLines = false)
    (hmin : ob.min ≤ 0) (hmax : (100 : ℚ) ≤ ob.max)
    (hdelta : ob.delta ≤ 0 ∨ o = none) :
    filter ow ob o s = s := by
  have hfilters : activeFilters ow ob o = [] := by
    unfold activeFilters
    rw [hcover, hcl]
    rw [if_neg (by push_neg; exact ⟨hmin, hmax⟩ : ¬ (ob.min > 0 ∨ ob.max < 100))]
    rcases hdelta with hd | ho
    · cases o with
      | none => simp
      | some os => simp [if_neg (not_lt.mpr hd)]
    · subst ho
      simp
  simp [filter, hfilters]

/-- `any` over a conditional singleton list. -/
theorem any_if_bool {Q : Type} (b : Bool) (x : Q) (f : Q → Bool) :
    (if b = true then [x] else []).any f = (b && f x) := by
  cases b <;> simp

/-- A min-line violation is emitted exactly when the source's first guard
holds. -/
theorem checkThreshold_any_isMinLine (cfg : ThresholdConfig) (c : Stats) (o : Option Stats) :
    (checkThreshold cfg c o).any ThresholdMsg.isMinLine
      = JsNum.gt cfg.minLineCoverage (JsNum.mul c.total.lines.percentual (JsNum.num 100)) := by
  simp only [checkThreshold]
  cases o with
  | none => simp [List.any_append, any_if_bool, ThresholdMsg.isMinLine]
  | some ob =>
    cases cfg.maxLineCoverageDecrease <;> cases cfg.maxMethodCoverageDecrease <;>
      simp [List.any_append, any_if_bool, ThresholdMsg.isMinLine]

/-- A min-method violation is emitted exactly when the source's second
guard holds. -/
theorem checkThreshold_any_isMinMethod (cfg : ThresholdConfig) (c : Stats) (o : Option Stats) :
    (checkThreshold cfg c o).any ThresholdMsg.isMinMethod
      = JsNum.gt cfg.minMethodCoverage (JsNum.mul c.total.methods.percentual (JsNum.num 100)) := by
  simp only [checkThreshold]
  cases o with
  | none => simp [List.any_append, any_if_bool, ThresholdMsg.isMinMethod]
  | some ob =>
    cases cfg.maxLineCoverageDecrease <;> cases cfg.maxMethodCoverageDecrease <;>
      simp [List.any_append, any_if_bool, ThresholdMsg.isMinMethod]

/-- A max-line-decrease violation is emitted exactly when a baseline is
present, the limit string is truthy, and the decrease reaches the limit. -/
theorem checkThreshold_any_isMaxLineDec (cfg : ThresholdConfig) (c : Stats) (o : Option Stats) :
    (checkThreshold cfg c o).any ThresholdMsg.isMaxLineDec
      = (match o, cfg.maxLineCoverageDecrease with
         | some ob, some limit =>
           JsNum.ge (JsNum.mul (JsNum.sub ob.total.lines.percentual c.total.lines.percentual)
             (JsNum.num 100)) limit
         | _, _ => false) := by
  simp only [checkThreshold]
  cases o with
  | none => simp [List.any_append, any_if_bool, ThresholdMsg.isMaxLineDec]
  | some ob =>
    cases cfg.maxLineCoverageDecrease <;> cases cfg.maxMethodCoverageDecrease <;>
      simp [List.any_append, any_if_bool, ThresholdMsg.isMaxLineDec]

/-- A max-method-decrease violation is emitted exactly when a baseline is
present, the limit string is truthy, and the decrease reaches the limit. -/
theorem checkThreshold_any_isMaxMethodDec (cfg : ThresholdConfig) (c : Stats) (o : Option Stats) :
    (checkThreshold cfg c o).any ThresholdMsg.isMaxMethodDec
      = (match o, cfg.maxMethodCoverageDecrease with
         | some ob, some limit =>
           JsNum.ge (JsNum.mul (JsNum.sub ob.total.methods.percentual c.total.methods.percentual)
             (JsNum.num 100)) limit
         | _, _ => false) := by
  simp only [checkThreshold]
  cases o with
  | none => simp [List.any_append, any_if_bool, ThresholdMsg.isMaxMethodDec]
  | some ob =>
    cases cfg.maxLineCoverageDecrease <;> cases cfg.maxMethodCoverageDecrease <;>
      simp [List.any_append, any_if_bool, ThresholdMsg.isMaxMethodDec]

/-- Claim C3: the minimum checks compare strictly (`min > current×100`),
so a current line fraction exactly equal to the minimum emits no
violation; the regression checks compare with `≥`, so a decrease exactly
equal to the configured maximum IS a violation. -/
theorem C3_threshold_boundaries :
    (∀ (cfg : ThresholdConfig) (c : Stats) (o : Option Stats),
      cfg.minLineCoverage = JsNum.num 80 →
      c.total.lines.percentual = JsNum.num (80/100) →
      (checkThreshold cfg c o).any ThresholdMsg.isMinLine = false) ∧
    (∀ (cfg : ThresholdConfig) (c o : Stats) (po pc : ℚ),
      cfg.maxLineCoverageDecrease = some (JsNum.num 5) →
      o.total.lines.percentual = JsNum.num po →
      c.total.lines.percentual = JsNum.num pc →
      (po - pc) * 100 = 5 →
      (checkThreshold cfg c (some o)).any ThresholdMsg.isMaxLineDec = true) := by
  constructor
  · intro cfg c o hcfg hp
    rw [checkThreshold_any_isMinLine, hcfg, hp]
    simp only [JsNum.mul, JsNum.gt, decide_eq_false_iff_not, not_lt]
    norm_num
  · intro cfg c o po pc hcfg hpo hpc hdiff
    rw [checkThreshold_any_isMaxLineDec, hcfg]
    show JsNum.ge (JsNum.mul (JsNum.sub o.total.lines.percentual c.total.lines.percentual)
      (JsNum.num 100)) (JsNum.num 5) = true
    rw [hpo, hpc]
    simp only [JsNum.sub, JsNum.mul, JsNum.ge, hdiff, decide_eq_true_eq]
    norm_num [hdiff]

/-- A current-stats value whose line fraction is exactly 0.80
(`Coverage(5, 4)`). -/
def c3Stats80 : Stats :=
  { total :=
      { lines := Coverage.make (JsNum.num 5) (JsNum.num 4)
        methods := Coverage.make (JsNum.num 0) (JsNum.num 0)
        branches := Coverage.make (JsNum.num 0) (JsNum.num 0) }
    folders := [] }

/-- A baseline with line fraction 0.85 (`Coverage(20, 17)`). -/
def c3Old : Stats :=
  { total :=
      { lines := Coverage.make (JsNum.num 20) (JsNum.num 17)
        methods := Coverage.make (JsNum.num 0) (JsNum.num 0)
        branches := Coverage.make (JsNum.num 0) (JsNum.num 0) }
    folders := [] }

/-- A current value with line fraction 0.80 (`Coverage(20, 16)`): a
decrease of exactly 5.00 points against `c3Old`. -/
def c3Cur : Stats :=
  { total :=
      { lines := Coverage.make (JsNum.num 20) (JsNum.num 16)
        methods := Coverage.make (JsNum.num 0) (JsNum.num 0)
        branches := Coverage.make (JsNum.num 0) (JsNum.num 0) }
    folders := [] }

/-- Witness for `C3_threshold_boundaries`: minimum 80 with fraction
exactly 0.80 emits nothing; decrease limit 5 with a decrease of exactly
5.00 emits. -/
theorem C3_witness :
    (checkThreshold
      { minLineCoverage := JsNum.num 80, minMethodCoverage := JsNum.num 0
        maxLineCoverageDecrease := none, maxMethodCoverageDecrease := none }
      c3Stats80 none).any ThresholdMsg.isMinLine = false ∧
    (checkThreshold
      { minLineCoverage := JsNum.num 0, minMethodCoverage := JsNum.num 0
        maxLineCoverageDecrease := some (JsNum.num 5), maxMethodCoverageDecrease := none }
      c3Cur (some c3Old)).any ThresholdMsg.isMaxLineDec = true := by
  constructor
  · exact C3_threshold_boundaries.1 _ _ _ rfl
      (by simp only [c3Stats80, Coverage.make, roundTo4]; norm_num)
  · exact C3_threshold_boundaries.2 _ _ _ (17/20) (16/20) rfl
      (by simp only [c3Old, Coverage.make, roundTo4]; norm_num)
      (by simp only [c3Cur, Coverage.make, roundTo4]; norm_num)
      (by norm_num)

/-- A concrete stats value with one folder and one file, for the filter
witnesses. -/
def c9Stats : Stats :=
  { total :=
      { lines := Coverage.make (JsNum.num 10) (JsNum.num 5)
        methods := Coverage.make (JsNum.num 2) (JsNum.num 1)
        branches := Coverage.make (JsNum.num 0) (JsNum.num 0) }
    folders :=
      [("a", { name := "a"
               files := [{ name := "b.ts", metrics := createFileMetrics c4Attrs [] }] })] }

/-- Witness for `C9_filter_identity` at an all-inactive configuration and
the concrete stats `c9Stats`. -/
theorem C9_witness :
    filter { cover := false, coverableLines := false }
      { type := MetricKind.lines, min := 0, max := 100, delta := 0 } none c9Stats
      = c9Stats := by
  exact C9_filter_identity _ _ _ _ rfl rfl le_rfl le_rfl (Or.inr rfl)

/-- Membership in a conditional singleton list determines the element. -/
theorem mem_if_singleton {Q : Type} {b : Bool} {x y : Q}
    (h : y ∈ if b = true then [x] else []) : y = x := by
  cases b <;> simp_all

/-- A concatenation of four conditional singletons with strictly
increasing ranks is pairwise rank-ordered. -/
theorem pairwise_rank_four (b1 b2 b3 b4 : Bool) (m1 m2 m3 m4 : ThresholdMsg)
    (h1 : m1.rank = 0) (h2 : m2.rank = 1) (h3 : m3.rank = 2) (h4 : m4.rank = 3) :
    ((if b1 = true then [m1] else []) ++ (if b2 = true then [m2] else [])
      ++ ((if b3 = true then [m3] else []) ++ (if b4 = true then [m4] else []))).Pairwise
      (fun a b => a.rank < b.rank) := by
  cases b1 <;> cases b2 <;> cases b3 <;> cases b4 <;>
    simp [h1, h2, h3, h4]

/-- Claim C7: `checkThreshold` yields a finite sequence in the fixed
order min-line, min-method, max-line-decrease, max-method-decrease
(strictly increasing ranks); without a baseline no regression message
(rank ≥ 2) ever appears; and a falsy limit — 0 or NaN for the minimums
(`Number("")` is 0), the empty string for the decrease limits — makes its
check emit nothing (for the minimums, on any stats whose fraction is
nonnegative or NaN, as every `Coverage`-built fraction from nonnegative
inputs is). -/
theorem C7_order_and_skipping :
    (∀ (cfg : ThresholdConfig) (c : Stats) (o : Option Stats),
      (checkThreshold cfg c o).Pairwise (fun a b => a.rank < b.rank)) ∧
    (∀ (cfg : ThresholdConfig) (c : Stats), ∀ m ∈ checkThreshold cfg c none, m.rank ≤ 1) ∧
    (∀ (cfg : ThresholdConfig) (c : Stats) (o : Option Stats),
      (cfg.minLineCoverage = JsNum.num 0 ∨ cfg.minLineCoverage = JsNum.nan) →
      c.total.lines.percentual.nonnegB = true →
      (checkThreshold cfg c o).any ThresholdMsg.isMinLine = false) ∧
    (∀ (cfg : ThresholdConfig) (c : Stats) (o : Option Stats),
      (cfg.minMethodCoverage = JsNum.num 0 ∨ cfg.minMethodCoverage = JsNum.nan) →
      c.total.methods.percentual.nonnegB = true →
      (checkThreshold cfg c o).any ThresholdMsg.isMinMethod = false) ∧
    (∀ (cfg : ThresholdConfig) (c : Stats) (o : Option Stats),
      cfg.maxLineCoverageDecrease = none →
      (checkThreshold cfg c o).any ThresholdMsg.isMaxLineDec = false) ∧
    (∀ (cfg : ThresholdConfig) (c : Stats) (o : Option Stats),
      cfg.maxMethodCoverageDecrease = none →
      (checkThreshold cfg c o).any ThresholdMsg.isMaxMethodDec = false) := by
  refine ⟨?_, ?_, ?_, ?_, ?_, ?_⟩
  · intro cfg c o
    rcases o with _ | ob
    · simp only [checkThreshold]
      exact pairwise_rank_four _ _ false false _ _ (ThresholdMsg.maxLineDec JsNum.nan JsNum.nan) (ThresholdMsg.maxMethodDec JsNum.nan JsNum.nan) rfl rfl rfl rfl
    · simp only [checkThreshold]
      cases hml : cfg.maxLineCoverageDecrease with
      | none =>
        cases hmm : cfg.maxMethodCoverageDecrease with
        | none => exact pairwise_rank_four _ _ false false _ _ (ThresholdMsg.maxLineDec JsNum.nan JsNum.nan) (ThresholdMsg.maxMethodDec JsNum.nan JsNum.nan) rfl rfl rfl rfl
        | some lb => exact pairwise_rank_four _ _ false _ _ _ (ThresholdMsg.maxLineDec JsNum.nan JsNum.nan) _ rfl rfl rfl rfl
      | some la =>
        cases hmm : cfg.maxMethodCoverageDecrease with
        | none => exact pairwise_rank_four _ _ _ false _ _ _ (ThresholdMsg.maxMethodDec JsNum.nan JsNum.nan) rfl rfl rfl rfl
        | some lb => exact pairwise_rank_four _ _ _ _ _ _ _ _ rfl rfl rfl rfl
  · intro cfg c m hm
    simp only [checkThreshold] at hm
    rw [List.append_nil] at hm
    rcases List.mem_append.mp hm with h | h
    · rw [mem_if_singleton h]
      simp [ThresholdMsg.rank]
    · rw [mem_if_singleton h]
      simp [ThresholdMsg.rank]
  · intro cfg c o hfalsy hnn
    rw [checkThreshold_any_isMinLine]
    rcases hfalsy with h | h <;> rw [h]
    · cases hp : c.total.lines.percentual with
      | nan => simp [JsNum.mul, JsNum.gt]
      | num q =>
        rw [hp] at hnn
        simp only [JsNum.nonnegB, decide_eq_true_eq] at hnn
        simp only [JsNum.mul, JsNum.gt, decide_eq_false_iff_not, not_lt]
        nlinarith
    · simp [JsNum.gt]
  · intro cfg c o hfalsy hnn
    rw [checkThreshold_any_isMinMethod]
    rcases hfalsy with h | h <;> rw [h]
    · cases hp : c.total.methods.percentual with
      | nan => simp [JsNum.mul, JsNum.gt]
      | num q =>
        rw [hp] at hnn
        simp only [JsNum.nonnegB, decide_eq_true_eq] at hnn
        simp only [JsNum.mul, JsNum.gt, decide_eq_false_iff_not, not_lt]
        nlinarith
    · simp [JsNum.gt]
  · intro cfg c o hnone
    rw [checkThreshold_any_isMaxLineDec, hnone]
    cases o <;> rfl
  · intro cfg c o hnone
    rw [checkThreshold_any_isMaxMethodDec, hnone]
    cases o <;> rfl

/-- Witness for `C7_order_and_skipping` at a concrete all-falsy
configuration and the concrete stats `c3Stats80`. -/
theorem C7_witness :
    (checkThreshold
        { minLineCoverage := JsNum.num 0, minMethodCoverage := JsNum.num 0
          maxLineCoverageDecrease := none, maxMethodCoverageDecrease := none }
        c3Stats80 none).Pairwise (fun a b => a.rank < b.rank) ∧
    (∀ m ∈ checkThreshold
        { minLineCoverage := JsNum.num 0, minMethodCoverage := JsNum.num 0
          maxLineCoverageDecrease := none, maxMethodCoverageDecrease := none }
        c3Stats80 none, m.rank ≤ 1) ∧
    (checkThreshold
        { minLineCoverage := JsNum.num 0, minMethodCoverage := JsNum.num 0
          maxLineCoverageDecrease := none, maxMethodCoverageDecrease := none }
        c3Stats80 none).any ThresholdMsg.isMinLine = false ∧
    (checkThreshold
        { minLineCoverage := JsNum.num 0, minMethodCoverage := JsNum.num 0
          maxLineCoverageDecrease := none, maxMethodCoverageDecrease := none }
        c3Stats80 none).any ThresholdMsg.isMaxLineDec = false := by
  have hnn : c3Stats80.total.lines.percentual.nonnegB = true := by
    simp only [c3Stats80, Coverage.make, roundTo4, JsNum.nonnegB]
    norm_num
  exact ⟨C7_order_and_skipping.1 _ _ _,
    C7_order_and_skipping.2.1 _ _,
    C7_order_and_skipping.2.2.1 _ _ _ (Or.inl rfl) hnn,
    C7_order_and_skipping.2.2.2.2.1 _ _ _ rfl⟩

/-- Claim C10: when the touched list is non-empty but matches no file
record, `fromString` returns a `Stats` with an empty folders map whose
three totals are each `Coverage(0, 0)`, and such a total's fraction is
`1` (vacuous full coverage). -/
theorem C10_no_match (w : String) (proj : CloverProject) (prFiles : List PRFile)
    (hne : prFiles ≠ [])
    (hnone : ∀ f ∈ getAllFiles proj,
      prMatches (hasLineInfoOf prFiles) prFiles (stripWorkspace (wNorm w) f.name) = false) :
    fromString w proj prFiles =
      { total :=
          { lines := Coverage.make (JsNum.num 0) (JsNum.num 0)
            methods := Coverage.make (JsNum.num 0) (JsNum.num 0)
            branches := Coverage.make (JsNum.num 0) (JsNum.num 0) }
        folders := [] } ∧
    (Coverage.make (JsNum.num 0) (JsNum.num 0)).percentual = JsNum.num 1 := by
  have hlen : prFiles.length > 0 := List.length_pos.mpr hne
  have hkept : (getAllFiles proj).filter (fun file =>
      prMatches (hasLineInfoOf prFiles) prFiles (stripWorkspace (wNorm w) file.name)) = [] :=
    List.filter_eq_nil_iff.mpr (fun a ha => by simp [hnone a ha])
  constructor
  · simp only [fromString]
    rw [if_pos hlen, hkept]
    rfl
  · simp [Coverage.make]

/-- A one-file project for the C10 witness. -/
def c10Proj : CloverProject :=
  { file := [{ name := "a/f.ts", path := none, attrs := c4Attrs, line := [] }]
    package := []
    metrics := c4Attrs }

/-- A touched list matching no file of `c10Proj`. -/
def c10Touched : List PRFile := [{ file := "zzz", lines := some [] }]

/-- Witness for `C10_no_match` at the concrete one-file project and a
non-matching touched list. -/
theorem C10_witness :
    c10Touched ≠ [] ∧
    (fromString "x/" c10Proj c10Touched).folders = [] ∧
    (fromString "x/" c10Proj c10Touched).total.lines.percentual = JsNum.num 1 := by
  have h := C10_no_match "x/" c10Proj c10Touched (by simp [c10Touched]) (by decide)
  refine ⟨by simp [c10Touched], ?_, ?_⟩
  · rw [h.1]
  · rw [h.1]
    exact h.2

/-- The estimate claim C1 describes, built from the spec's words (for
comparison only): ONE single proportion
`totalRangeLines / fileTotalStatements` (1 when the statement total is 0)
applied alike to statements, methods and conditionals, with
`estimated = round(fileAggregateTotal × proportion)` and
`estimatedCovered = round(fileAggregateCoveredTotal × proportion)`.
Attributes are assumed present, as the spec speaks of well-formed
reports. -/
def specSingleProportionContribution (a : CloverAttrs) (lineRanges : List (ℤ × ℤ)) :
    Contribution :=
  let L : ℚ := ((lineRanges.foldl (fun sum r => sum + (r.2 - r.1 + 1)) 0 : ℤ) : ℚ)
  let st : ℚ := a.statements.getD 0
  let p : ℚ := if st = 0 then 1 else L / st
  let rnd : ℚ → ℚ := fun q => ((⌊q + 1/2⌋ : ℤ) : ℚ)
  { statements := JsNum.num (rnd (st * p))
    coveredStatements := JsNum.num (rnd ((a.coveredstatements.getD 0) * p))
    methods := JsNum.num (rnd ((a.methods.getD 0) * p))
    coveredMethods := JsNum.num (rnd ((a.coveredmethods.getD 0) * p))
    conditionals := JsNum.num (rnd ((a.conditionals.getD 0) * p))
    coveredConditionals := JsNum.num (rnd ((a.coveredconditionals.getD 0) * p)) }

/-- The attributes of the C1 example file: 100 statements (40 covered),
5 methods (2 covered), no conditionals. -/
def c1Attrs : CloverAttrs :=
  { statements := some 100, coveredstatements := some 40, methods := some 5
    coveredmethods := some 2, conditionals := some 0, coveredconditionals := some 0 }

/-- The C1 example project: one file. -/
def c1Proj : CloverProject :=
  { file := [{ name := "a/f.ts", path := none, attrs := c1Attrs, line := [] }]
    package := []
    metrics := c1Attrs }

/-- The C1 touched list: the one file, with a 10-line range. -/
def c1Touched : List PRFile :=
  [{ file := "a/f.ts", lines := some [LineInfo.rangeOf 1 10] }]

/-- Claim C1 counterexample: on the example file (statements=100,
methods=5, coveredmethods=2) with a 10-line touched range, the code's
method total contribution is `round(5 × 10/5) = 10`, whereas the claim's
single statements-based proportion predicts `round(5 × 10/100) = 1` —
the code does not apply one single proportion to all three metrics. -/
theorem C1_counterexample :
    (fromString "x/" c1Proj c1Touched).total.methods.total = JsNum.num 10 ∧
    (specSingleProportionContribution c1Attrs [(1, 10)]).methods = JsNum.num 1 ∧
    JsNum.num (10 : ℚ) ≠ JsNum.num (1 : ℚ) := by
  refine ⟨?_, ?_, by simp⟩
  · have h0 : (fromString "x/" c1Proj c1Touched).total.methods.total
        = JsNum.add (JsNum.num 0) (rangedContribution c1Attrs [(1, 10)]).methods := rfl
    rw [h0]
    have h1 : (rangedContribution c1Attrs [(1, 10)]).methods = JsNum.num 10 := by
      simp only [rangedContribution, c1Attrs, attrNum, JsNum.orZero]
      norm_num [JsNum.gt, JsNum.div, JsNum.mul, JsNum.round]
    rw [h1]
    simp only [JsNum.add]
    norm_num
  · simp only [specSingleProportionContribution, c1Attrs, Option.getD]
    norm_num

/-- Adding one half to an integer and flooring returns the integer. -/
theorem floor_intCast_add_half (n : ℤ) : ⌊((n : ℚ) + 1/2)⌋ = n := by
  rw [add_comm, Int.floor_add_int]
  norm_num

/-- Claim C1 (amended): for a retained file matched to a touched entry
with a non-empty line list, each metric is scaled by ITS OWN proportion
`totalRangeLines / metricTotal` (1 when that total is not positive), not
by one single statements-based proportion.  With all three totals
positive, every estimated total collapses to `totalRangeLines` itself
(`round(total × L/total) = L`), and each covered estimate is
`round(covered × L / ownTotal)`.  The statements metric thus agrees with
the claim's formula (statements=100, covered=40, 10 touched lines give
10 and 4), while methods and conditionals use their own denominators. -/
theorem C1_amended (prFiles : List PRFile) (w : String) (file : CloverFile)
    (prf : PRFile) (lns : List LineInfo) (st cst mt cmt ct cct : ℚ)
    (hfind : findPRFile prFiles (stripWorkspace w file.name) = some prf)
    (hlns : prf.lines = some lns) (hne : lns ≠ [])
    (hst : file.attrs.statements = some st)
    (hcst : file.attrs.coveredstatements = some cst)
    (hmt : file.attrs.methods = some mt)
    (hcmt : file.attrs.coveredmethods = some cmt)
    (hct : file.attrs.conditionals = some ct)
    (hcct : file.attrs.coveredconditionals = some cct)
    (hstpos : 0 < st) (hmtpos : 0 < mt) (hctpos : 0 < ct) :
    fileContribution true prFiles w file =
      { statements := JsNum.num (((lns.filterMap toRange).foldl
          (fun sum r => sum + (r.2 - r.1 + 1)) 0 : ℤ) : ℚ)
        coveredStatements := JsNum.num ((⌊cst * ((((lns.filterMap toRange).foldl
          (fun sum r => sum + (r.2 - r.1 + 1)) 0 : ℤ) : ℚ) / st) + 1/2⌋ : ℤ) : ℚ)
        methods := JsNum.num (((lns.filterMap toRange).foldl
          (fun sum r => sum + (r.2 - r.1 + 1)) 0 : ℤ) : ℚ)
        coveredMethods := JsNum.num ((⌊cmt * ((((lns.filterMap toRange).foldl
          (fun sum r => sum + (r.2 - r.1 + 1)) 0 : ℤ) : ℚ) / mt) + 1/2⌋ : ℤ) : ℚ)
        conditionals := JsNum.num (((lns.filterMap toRange).foldl
          (fun sum r => sum + (r.2 - r.1 + 1)) 0 : ℤ) : ℚ)
        coveredConditionals := JsNum.num ((⌊cct * ((((lns.filterMap toRange).foldl
          (fun sum r => sum + (r.2 - r.1 + 1)) 0 : ℤ) : ℚ) / ct) + 1/2⌋ : ℤ) : ℚ) } := by
  have hstne : st ≠ 0 := ne_of_gt hstpos
  have hmtne : mt ≠ 0 := ne_of_gt hmtpos
  have hctne : ct ≠ 0 := ne_of_gt hctpos
  set nL : ℤ := (lns.filterMap toRange).foldl (fun sum r => sum + (r.2 - r.1 + 1)) 0 with hnL
  have collapse : ∀ q : ℚ, 0 < q → q * ((nL : ℚ) / q) = (nL : ℚ) := by
    intro q hq
    rw [mul_comm, div_mul_cancel₀ _ (ne_of_gt hq)]
  simp only [fileContribution, hfind, hlns]
  rw [if_pos (List.length_pos.mpr hne)]
  have hgst : JsNum.gt (JsNum.num st) (JsNum.num 0) = true := by
    simpa [JsNum.gt] using hstpos
  have hgmt : JsNum.gt (JsNum.num mt) (JsNum.num 0) = true := by
    simpa [JsNum.gt] using hmtpos
  have hgct : JsNum.gt (JsNum.num ct) (JsNum.num 0) = true := by
    simpa [JsNum.gt] using hctpos
  simp only [rangedContribution, hst, hcst, hmt, hcmt, hct, hcct, attrNum, JsNum.orZero,
    ← hnL]
  rw [if_pos hgst, if_pos hgmt, if_pos hgct]
  simp only [JsNum.div, if_neg hstne, if_neg hmtne, if_neg hctne, JsNum.mul, JsNum.round]
  rw [collapse st hstpos, collapse mt hmtpos, collapse ct hctpos]
  simp [floor_intCast_add_half]
  norm_num

/-- Witness for `C1_amended` at the concrete C1 example (10-line range,
statements=100/40, methods=5/2, conditionals irrelevant but positive):
statements contribute 10 total / 4 covered as the claim's example says,
while methods contribute 10 total / 4 covered (own denominator 5), not
round(5×0.1)=1 / round(2×0.1)=0. -/
theorem C1_amended_witness :
    fileContribution true
        [{ file := "a/f.ts", lines := some [LineInfo.rangeOf 1 10] }] "x/"
        { name := "a/f.ts", path := none
          attrs := { statements := some 100, coveredstatements := some 40
                     methods := some 5, coveredmethods := some 2
                     conditionals := some 4, coveredconditionals := some 1 }
          line := [] }
      = { statements := JsNum.num 10
          coveredStatements := JsNum.num ((⌊(40 : ℚ) * ((10 : ℚ) / 100) + 1/2⌋ : ℤ) : ℚ)
          methods := JsNum.num 10
          coveredMethods := JsNum.num ((⌊(2 : ℚ) * ((10 : ℚ) / 5) + 1/2⌋ : ℤ) : ℚ)
          conditionals := JsNum.num 10
          coveredConditionals := JsNum.num ((⌊(1 : ℚ) * ((10 : ℚ) / 4) + 1/2⌋ : ℤ) : ℚ) } := by
  have h := C1_amended
    [{ file := "a/f.ts", lines := some [LineInfo.rangeOf 1 10] }] "x/"
    { name := "a/f.ts", path := none
      attrs := { statements := some 100, coveredstatements := some 40
                 methods := some 5, coveredmethods := some 2
                 conditionals := some 4, coveredconditionals := some 1 }
      line := [] }
    { file := "a/f.ts", lines := some [LineInfo.rangeOf 1 10] }
    [LineInfo.rangeOf 1 10] 100 40 5 2 4 1
    rfl rfl (by simp) rfl rfl rfl rfl rfl rfl
    (by norm_num) (by norm_num) (by norm_num)
  have hL : (List.foldl (fun sum r => sum + (r.2 - r.1 + 1)) 0
      (List.filterMap toRange [LineInfo.rangeOf 1 10]) : ℤ) = 10 := by decide
  rw [h, hL]
  norm_num

end CloverSpec
